import Mathlib

/-!
# WhatsFlowSender — formal model of the run controller and phone formatting

A shallow embedding of the parts of the WhatsFlowSender repository that the
specification's claims are about:

* `src/utils/phoneUtils.ts` — `getFormattedNumber`;
* `src/App.tsx` — the global reducer (contact list, `currentContactIndex`,
  `UPDATE_CONTACT_STATUS`, `NEXT_CONTACT`, `SET_CONTACT_INDEX`, `RESET_RUNNER`);
* `src/components/LiveRunner.tsx` — the auto-run controller: the
  `visibilitychange` handler with its `setInterval` countdown closure,
  `attemptOpen`, `manualOpen`, `toggleRun`;
* `src/components/SessionMode.tsx` — the manual runner: `next` (skip /
  mark-sent) and `jumpTo`.

JavaScript strings are modelled as `String` (with character-list cores),
JS numbers used by the countdown as exact rationals `ℚ` (the code only ever
adds and subtracts multiples of 0.1 and 0.5), and array indices as `Int`
(the index can be `-1`, and JS `contacts[-1]` is `undefined`).
-/

namespace WhatsFlow

/-- `Contact.status` values from `src/types.ts`. -/
inductive SendStatus
  | pending
  | sent
  | failed
  | skipped
deriving DecidableEq, Repr

/-- A recipient, from the `Contact` interface in `src/types.ts`
(`timestamp` is optional and never read by the runner; omitted). -/
structure Contact where
  id : String
  name : String
  number : String
  status : SendStatus
  selected : Bool
deriving DecidableEq, Repr

/-- `AppStep` from `src/types.ts`. -/
inductive AppStep
  | input
  | compose
  | running
  | manual
  | summary
deriving DecidableEq, Repr

/-- The slice of `AppState` (`src/types.ts`) that the run controller reads and
writes: the contact list, the run position, the current step and the
configured inter-send delay (`config.delay`, seconds). -/
structure AppState where
  step : AppStep
  contacts : List Contact
  currentContactIndex : Int
  delay : ℚ
deriving DecidableEq, Repr

/-- The runner-related actions of the reducer in `src/App.tsx`.

`UPDATE_CONTACT_STATUS` carries the payload *object* as the dispatch sites
build it: the reducer reads `action.payload.id`, so the payload is modelled
by the optional `id` field it may or may not have (`LiveRunner.tsx`
dispatches `{ index, status }`, a payload with **no** `id` field, modelled
as `idOpt = none`; `SessionMode.tsx` dispatches `{ id, status }`, modelled
as `idOpt = some id`). The `index` field of LiveRunner's payload is never
read by the reducer and is therefore not part of the model. -/
inductive Action
  | setStep (s : AppStep)
  | updateContactStatus (idOpt : Option String) (status : SendStatus)
  | nextContact
  | setContactIndex (i : Int)
  | resetRunner
deriving DecidableEq, Repr

/-- The reducer of `src/App.tsx` (runner-related cases, lines 35–104).
`UPDATE_CONTACT_STATUS` maps over the contacts comparing `c.id` with
`action.payload.id`; a payload without an `id` field (JS `undefined`)
matches no contact. -/
def reducer (s : AppState) : Action → AppState
  | .setStep st => { s with step := st }
  | .updateContactStatus idOpt status =>
      { s with contacts := s.contacts.map fun c =>
          if idOpt = some c.id then { c with status := status } else c }
  | .nextContact => { s with currentContactIndex := s.currentContactIndex + 1 }
  | .setContactIndex i => { s with currentContactIndex := i }
  | .resetRunner =>
      { s with currentContactIndex := -1,
               contacts := s.contacts.map fun c => { c with status := .pending } }

/-! ## Phone number formatting (`src/utils/phoneUtils.ts`) -/

/-- `num.replace(/[^0-9]/g, "")` — keep only the ASCII digits `0`–`9`. -/
def cleanDigitsL (l : List Char) : List Char := l.filter Char.isDigit

/-- JS `clean.startsWith(cc)` on character lists. -/
def startsWithL (l pre : List Char) : Bool := l.take pre.length == pre

/-- `if (clean.startsWith("0")) clean = clean.substring(1)` — strip a single
leading `0`. -/
def stripZeroL (l : List Char) : List Char :=
  if l.head? = some '0' then l.tail else l

/-- The body of `getFormattedNumber` (`src/utils/phoneUtils.ts`, lines 8–30)
on character lists: clean to digits; empty cleans return empty; with a
configured country code, strip one leading `0`, then prepend the code unless
the digits already start with it *and* their total length exceeds 10. -/
def formatCore (numL ccL : List Char) : List Char :=
  let clean := cleanDigitsL numL
  if clean = [] then []
  else if ccL = [] then clean
  else
    let clean1 := stripZeroL clean
    if startsWithL clean1 ccL then
      if clean1.length ≤ 10 then ccL ++ clean1 else clean1
    else ccL ++ clean1

/-- `getFormattedNumber` from `src/utils/phoneUtils.ts`. -/
def getFormattedNumber (num cc : String) : String :=
  ⟨formatCore num.toList cc.toList⟩

/-! ## The auto-run controller (`src/components/LiveRunner.tsx`) -/

/-- `parseFloat(x.toFixed(1))` for the exact decimal values the countdown
produces: round to the nearest tenth (`⌊10q + 1/2⌋ / 10`; for the
non-negative values the clamp `Math.max(0, ·)` keeps, this is exactly
`toFixed(1)` rounding). -/
def round1 (q : ℚ) : ℚ := (⌊10 * q + 1 / 2⌋ : ℤ) / 10

/-- The closure state of the `setInterval` countdown started by the
visibility handler (`LiveRunner.tsx`, lines 50–70): the mutable `timer`
variable and the `total` captured from the enclosing effect. -/
structure IntervalTimer where
  timer : ℚ
  total : Nat
deriving DecidableEq, Repr

/-- The full state of the `LiveRunner` component: the reducer state it reads
plus its local `useState` flags, the (at most one) live countdown interval,
and a ghost counter `opens` of external-target launches (`window.open` /
`navigator.share` invocations that presented a surface). -/
structure RunnerState where
  app : AppState
  isRunning : Bool
  countdown : ℚ
  isWaitingForReturn : Bool
  manualTriggerNeeded : Bool
  interval : Option IntervalTimer
  opens : Nat
deriving DecidableEq, Repr

/-- `current = state.contacts[state.currentContactIndex]` in
`LiveRunner.tsx` (line 30): JS indexing with a possibly negative index. -/
def currentContact (s : AppState) : Option Contact :=
  if s.currentContactIndex < 0 then none
  else s.contacts.get? s.currentContactIndex.toNat

/-- `handleVisibilityChange` (`LiveRunner.tsx`, lines 35–72): when the app
becomes visible while both `isWaitingForReturn` and `isRunning` are set, it
dispatches `UPDATE_CONTACT_STATUS` with payload `{ index, status: 'sent' }`
(a payload with no `id` field), clears the waiting and manual flags, sets
the countdown to `state.config.delay` and starts the interval (capturing
`timer = delay` and `total = state.contacts.length`). Otherwise nothing
happens. -/
def handleVisibilityChange (visible : Bool) (s : RunnerState) : RunnerState :=
  if visible ∧ s.isWaitingForReturn = true ∧ s.isRunning = true then
    { s with
      app := reducer s.app (.updateContactStatus none .sent),
      isWaitingForReturn := false,
      manualTriggerNeeded := false,
      countdown := s.app.delay,
      interval := some ⟨s.app.delay, s.app.contacts.length⟩ }
  else s

/-- One firing of the countdown interval callback (`LiveRunner.tsx`, lines
53–70): decrement `timer` by `0.1`, report `Math.max(0,
parseFloat(timer.toFixed(1)))` as the countdown, and on `timer <= 0` clear
the interval, zero the countdown, and either dispatch `NEXT_CONTACT`
(when `currentIndexRef + 1 < total`) or stop the run and go to the summary.
When no interval is live (`clearInterval` already ran) nothing fires. -/
def intervalTick (s : RunnerState) : RunnerState :=
  match s.interval with
  | none => s
  | some t =>
      let timer := t.timer - 1 / 10
      let s1 := { s with countdown := max 0 (round1 timer),
                         interval := some { t with timer := timer } }
      if timer ≤ 0 then
        let s2 := { s1 with interval := none, countdown := 0 }
        if s.app.currentContactIndex + 1 < (t.total : Int) then
          { s2 with app := reducer s2.app .nextContact }
        else
          { s2 with isRunning := false, app := reducer s2.app (.setStep .summary) }
      else s1

/-- `toggleRun` (`LiveRunner.tsx`, lines 135–148). Note that the pause
branch clears the flags and zeroes the displayed countdown but contains no
`clearInterval`: the `interval` field is untouched. -/
def toggleRun (s : RunnerState) : RunnerState :=
  if s.isRunning then
    { s with isRunning := false, isWaitingForReturn := false,
             countdown := 0, manualTriggerNeeded := false }
  else
    { s with isRunning := true }

/-- `manualOpen` (`LiveRunner.tsx`, lines 123–133): guarded only by
`if (current)`; when a current contact exists it clears the manual flag,
opens the target URL, sets the waiting flag and forces `isRunning := true`. -/
def manualOpen (s : RunnerState) : RunnerState :=
  match currentContact s.app with
  | some _ =>
      { s with manualTriggerNeeded := false,
               opens := s.opens + 1,
               isWaitingForReturn := true,
               isRunning := true }
  | none => s

/-- The environment-determined outcome of one `attemptOpen` call
(`LiveRunner.tsx`, lines 87–121): which branch the host runtime takes. -/
inductive DispatchOutcome
  | shareAccepted
  | shareRejected
  | shareUnavailable
  | windowOpened
  | windowBlocked
  | exceptionThrown
deriving DecidableEq, Repr

/-- `attemptOpen` (`LiveRunner.tsx`, lines 87–121) given the outcome the
host runtime produced: a resolved `navigator.share` or a non-null
`window.open` sets the waiting flag; a rejected share runs the `.catch`
handler `setIsRunning(false)` (the code comments this `// Pause on error`);
a missing share capability, a null `window.open` (popup suppressed) and a
synchronous exception all set `manualTriggerNeeded`. -/
def attemptOpen (o : DispatchOutcome) (s : RunnerState) : RunnerState :=
  match o with
  | .shareAccepted => { s with opens := s.opens + 1, isWaitingForReturn := true }
  | .shareRejected => { s with isRunning := false }
  | .shareUnavailable => { s with manualTriggerNeeded := true }
  | .windowOpened => { s with opens := s.opens + 1, isWaitingForReturn := true }
  | .windowBlocked => { s with manualTriggerNeeded := true }
  | .exceptionThrown => { s with manualTriggerNeeded := true }

/-! ## The manual runner (`src/components/SessionMode.tsx`) -/

/-- `activeContacts` (`SessionMode.tsx`, line 35): the contacts with
`selected == true`, in list order. -/
def selectedContacts (s : AppState) : List Contact :=
  s.contacts.filter fun c => c.selected

/-- `currentContact` in `SessionMode.tsx` (lines 46–49): indexes the
*filtered* list, `undefined` for a negative or out-of-range index. -/
def sessionCurrent (s : AppState) : Option Contact :=
  if s.currentContactIndex < 0 then none
  else (selectedContacts s).get? s.currentContactIndex.toNat

/-- `next(status)` (`SessionMode.tsx`, lines 172–186): with a current
contact, dispatch `UPDATE_CONTACT_STATUS` with payload `{ id, status }`
(by id), then `NEXT_CONTACT` if another selected contact follows, else go
to the summary. Without a current contact it returns immediately. -/
def sessionNext (status : SendStatus) (s : AppState) : AppState :=
  match sessionCurrent s with
  | none => s
  | some c =>
      let s1 := reducer s (.updateContactStatus (some c.id) status)
      if s.currentContactIndex + 1 < ((selectedContacts s).length : Int) then
        reducer s1 .nextContact
      else
        reducer s1 (.setStep .summary)

/-! ## The controller's operations as one event-step machine

The claims about reachable controller states quantify over the operations
`start`/`pause` (`toggleRun`), the countdown-complete advance (the interval
callback), dispatch outcomes, the foreground signal, `manualOpen`,
`skip()`/`markSent()` (`SessionMode.next`), `jumpTo` and `reset()`. Each is
an event acting on `RunnerState`. -/

/-- One controller event. `dispatch o` is the TRIGGER LOGIC effect of
`LiveRunner.tsx` (lines 79–85) running `attemptOpen` with host outcome `o`;
it fires only under the effect's guard `isRunning && !isWaitingForReturn &&
current && countdown === 0 && !manualTriggerNeeded`. `jump i` is
`SessionMode.jumpTo` as reachable from its call sites, which pass only
indices of the rendered `activeContacts` list (`SessionMode.tsx`, lines
226–237). -/
inductive Event
  | visibility (visible : Bool)
  | tick
  | toggle
  | manualTrigger
  | dispatch (o : DispatchOutcome)
  | sessionAdvance (status : SendStatus)
  | jump (i : Nat)
  | reset
deriving DecidableEq, Repr

/-- The guard of the TRIGGER LOGIC effect (`LiveRunner.tsx`, line 82). -/
def triggerGuard (s : RunnerState) : Bool :=
  s.isRunning && !s.isWaitingForReturn && (currentContact s.app).isSome
    && s.countdown == 0 && !s.manualTriggerNeeded

/-- Apply one event to the controller state. -/
def runStep (s : RunnerState) : Event → RunnerState
  | .visibility v => handleVisibilityChange v s
  | .tick => intervalTick s
  | .toggle => toggleRun s
  | .manualTrigger => manualOpen s
  | .dispatch o => if triggerGuard s then attemptOpen o s else s
  | .sessionAdvance status => { s with app := sessionNext status s.app }
  | .jump i =>
      if (i : Int) < ((selectedContacts s.app).length : Int) then
        { s with app := reducer s.app (.setContactIndex i) }
      else s
  | .reset => { s with app := reducer s.app .resetRunner }

/-- Run a sequence of events. -/
def runTrace (s : RunnerState) (l : List Event) : RunnerState :=
  l.foldl runStep s

/-! ## The countdown interval as a stand-alone timer machine

`§4.3` of the spec abstracts the interval of `LiveRunner.tsx` (lines 50–70)
as a cancellable countdown timer. The machine below is that interval in
isolation: `timer` is the closure variable, `active` is "the interval has
not been cleared" (`clearInterval` semantics: a cleared interval's callback
never runs again), `lastReported` is the latest `setCountdown` argument and
`completedFired` records whether the completion branch (the body of
`if (timer <= 0)`) has run. -/
structure Countdown where
  timer : ℚ
  active : Bool
  lastReported : ℚ
  completedFired : Bool
deriving DecidableEq, Repr

/-- `setCountdown(timer); setInterval(...)` — the countdown as started at
duration `t0` (`LiveRunner.tsx`, lines 50–53). -/
def startCountdown (t0 : ℚ) : Countdown :=
  { timer := t0, active := true, lastReported := t0, completedFired := false }

/-- One firing of the interval callback; a cleared interval does nothing. -/
def countdownTick (c : Countdown) : Countdown :=
  if c.active then
    let timer := c.timer - 1 / 10
    if timer ≤ 0 then
      { timer := timer, active := false, lastReported := 0, completedFired := true }
    else
      { c with timer := timer, lastReported := max 0 (round1 timer) }
  else c

/-- `clearInterval(interval)`: stop the ticks. -/
def cancelCountdown (c : Countdown) : Countdown :=
  { c with active := false }

/-! ## Position invariant -/

/-- A live interval's captured `total` agrees with the current length of the
contact list (the event set never changes the list's length, so the capture
stays accurate). -/
def intervalTotalOk (s : RunnerState) : Bool :=
  match s.interval with
  | some t => t.total == s.app.contacts.length
  | none => true

/-- The run-position invariant the controller maintains:
`-1 ≤ currentContactIndex ≤ length contacts` (the **full** list — the
auto-runner of `LiveRunner.tsx` indexes and bounds against
`state.contacts`, not the selected subsequence), together with accuracy of
any live interval's captured `total`. -/
def PosInv (s : RunnerState) : Prop :=
  -1 ≤ s.app.currentContactIndex ∧
  s.app.currentContactIndex ≤ (s.app.contacts.length : Int) ∧
  intervalTotalOk s = true

instance (s : RunnerState) : Decidable (PosInv s) := by
  unfold PosInv; infer_instance

/-! # Claims -/

/-- C3 counterexample. The claim states the already-international heuristic
in terms of the length *remaining after the country-code prefix*: digits
that start with the configured code get the code prepended anyway whenever
the remainder is ≤ 10 digits long. On input `"91123456789"` with code
`"91"` the cleaned digits start with the code and the remainder
`"123456789"` has 9 ≤ 10 digits, so the claim predicts
`"9191123456789"`; the code compares the *total* length (11 > 10) and
returns the input unchanged. -/
theorem getFormattedNumber_remaining_length_counterexample :
    startsWithL (stripZeroL (cleanDigitsL ("91123456789".toList))) ("91".toList) = true ∧
    (stripZeroL (cleanDigitsL ("91123456789".toList))).length - ("91".toList).length ≤ 10 ∧
    getFormattedNumber "91123456789" "91" = "91123456789" ∧
    getFormattedNumber "91123456789" "91" ≠ "9191123456789" :=
  ⟨by decide, by decide, by decide, by decide⟩

/-- C3 (amended): `num` is reduced to digits; with a configured
country code a single leading `0` is stripped; then, if the digits start
with the code and the **total** length of the (zero-stripped) digits is
> 10 they are returned unmodified, and in every other case — not starting
with the code, or total length ≤ 10 — the code is prepended. If the code
is empty the digits-only string is returned unchanged. The three example
evaluations of the claim hold as stated. -/
theorem getFormattedNumber_spec (num cc : String)
    (h1 : cleanDigitsL num.toList ≠ []) (h2 : cc.toList ≠ []) :
    (startsWithL (stripZeroL (cleanDigitsL num.toList)) cc.toList = true ∧
        10 < (stripZeroL (cleanDigitsL num.toList)).length →
          getFormattedNumber num cc = ⟨stripZeroL (cleanDigitsL num.toList)⟩) ∧
    (startsWithL (stripZeroL (cleanDigitsL num.toList)) cc.toList = false ∨
        (stripZeroL (cleanDigitsL num.toList)).length ≤ 10 →
          getFormattedNumber num cc = ⟨cc.toList ++ stripZeroL (cleanDigitsL num.toList)⟩) ∧
    (∀ n : String, getFormattedNumber n "" = ⟨cleanDigitsL n.toList⟩) ∧
    getFormattedNumber "0987654321" "91" = "91987654321" ∧
    getFormattedNumber "911234567890123" "91" = "911234567890123" ∧
    getFormattedNumber "1234567890" "" = "1234567890" := by
  simp only [String.toList] at h1 h2 ⊢
  refine ⟨?_, ?_, ?_, by decide, by decide, by decide⟩
  · rintro ⟨hsw, hlen⟩
    unfold getFormattedNumber formatCore
    simp [String.toList, h1, h2, hsw, Nat.not_le.2 hlen]
  · rintro (hsw | hlen)
    · unfold getFormattedNumber formatCore
      simp [String.toList, h1, h2, hsw]
    · unfold getFormattedNumber formatCore
      by_cases hsw : startsWithL (stripZeroL (cleanDigitsL num.data)) cc.data = true
      · simp [String.toList, h1, h2, hsw, hlen]
      · simp [String.toList, h1, h2, hsw]
  · intro n
    unfold getFormattedNumber formatCore
    by_cases hn : cleanDigitsL n.data = []
    · simp [String.toList, hn]
    · simp [String.toList, hn]

/-- C3 witness: the amended characterization applied at
`("0987654321", "91")`. -/
theorem getFormattedNumber_spec_witness :
    getFormattedNumber "0987654321" "91" =
      ⟨"91".toList ++ stripZeroL (cleanDigitsL ("0987654321".toList))⟩ :=
  (getFormattedNumber_spec "0987654321" "91" (by decide) (by decide)).2.1
    (Or.inr (by decide))

/-- C10: an input with no digit characters cleans to the empty string, which
is returned before any country code is applied — the code is never
prepended to an empty cleaned number. -/
theorem getFormattedNumber_empty_of_no_digits (num cc : String)
    (h : num.toList.all (fun ch => !ch.isDigit) = true) :
    getFormattedNumber num cc = "" := by
  have hclean : cleanDigitsL num.data = [] := by
    simp only [cleanDigitsL]
    rw [List.filter_eq_nil_iff]
    intro a ha
    have := List.all_eq_true.1 h a ha
    simpa using this
  unfold getFormattedNumber formatCore
  simp only [String.toList, hclean, if_true]

/-- C10 witness: a digit-free input with a configured country code. -/
theorem getFormattedNumber_empty_of_no_digits_witness :
    getFormattedNumber "a-b c!" "91" = "" :=
  getFormattedNumber_empty_of_no_digits "a-b c!" "91" (by decide)

/-- A Running·WaitingForReturn state for C1: one pending selected contact,
position 0, running and waiting for the foreground return. -/
def c1state : RunnerState :=
  { app := { step := .running,
             contacts := [⟨"1", "Alice", "1234567890", .pending, true⟩],
             currentContactIndex := 0, delay := 15 / 10 },
    isRunning := true, countdown := 0, isWaitingForReturn := true,
    manualTriggerNeeded := false, interval := none, opens := 0 }

/-- C1: the visibility handler never marks any recipient `sent`. The
`UPDATE_CONTACT_STATUS` dispatch in `LiveRunner.tsx` (line 41) sends the
payload `{ index, status }`, while the reducer in `App.tsx` (line 89) — and
the `Action` type in `src/types.ts` — look up `action.payload.id`; the
payload has no `id` field, so no contact matches and every `sendStatus` is
left untouched, even though the waiting and manual flags are cleared and
the countdown is started at the configured delay. At the failing input
(`c1state`, foreground event in Running·WaitingForReturn) the current
recipient stays `pending`. -/
theorem visibility_never_marks_sent :
    (∀ (s : RunnerState) (v : Bool),
      (handleVisibilityChange v s).app.contacts.map Contact.status =
        s.app.contacts.map Contact.status) ∧
    (handleVisibilityChange true c1state).isWaitingForReturn = false ∧
    (handleVisibilityChange true c1state).manualTriggerNeeded = false ∧
    (handleVisibilityChange true c1state).countdown = c1state.app.delay ∧
    (handleVisibilityChange true c1state).interval =
      some ⟨c1state.app.delay, 1⟩ ∧
    (currentContact (handleVisibilityChange true c1state).app).map Contact.status =
      some .pending := by
  refine ⟨?_, ?_, ?_, ?_, ?_, ?_⟩
  · intro s v
    unfold handleVisibilityChange reducer
    split
    · simp [List.map_map, Function.comp]
    · rfl
  all_goals
    simp [handleVisibilityChange, reducer, currentContact, c1state]

/-- A Paused state (running flag clear, waiting flag still set) for the C5
witness. -/
def c5state : RunnerState :=
  { app := { step := .running,
             contacts := [⟨"1", "Alice", "1234567890", .pending, true⟩],
             currentContactIndex := 0, delay := 15 / 10 },
    isRunning := false, countdown := 0, isWaitingForReturn := true,
    manualTriggerNeeded := false, interval := none, opens := 0 }

/-- C5: a visibility event received while the controller is not
simultaneously running and waiting-for-return changes nothing at all: the
handler's guard checks both flags, and outside it the whole state —
recipient statuses, countdown, position, flags — is returned unchanged. -/
theorem foreground_ignored_when_not_waiting (s : RunnerState) (v : Bool)
    (h : ¬(s.isWaitingForReturn = true ∧ s.isRunning = true)) :
    handleVisibilityChange v s = s := by
  unfold handleVisibilityChange
  split
  · rename_i hcond
    exact absurd ⟨hcond.2.1, hcond.2.2⟩ h
  · rfl

/-- C5 witness: a foreground event in a paused state (waiting set, running
clear) is a no-op. -/
theorem foreground_ignored_when_not_waiting_witness :
    handleVisibilityChange true c5state = c5state :=
  foreground_ignored_when_not_waiting c5state true (by decide)

/-- A running, attachment-mode state for C2: the share sheet is presented
and the user cancels it. -/
def c2state : RunnerState :=
  { app := { step := .running,
             contacts := [⟨"1", "Alice", "1234567890", .pending, true⟩],
             currentContactIndex := 0, delay := 15 / 10 },
    isRunning := true, countdown := 0, isWaitingForReturn := false,
    manualTriggerNeeded := false, interval := none, opens := 0 }

/-- C2 counterexample: a share dialog cancelled by the user (`failed`) does
**not** transition to Running·ManualTriggerNeeded with the running flag
kept — the `.catch` handler of `attemptOpen` (`LiveRunner.tsx` line 97)
runs `setIsRunning(false)`, so the run is paused and the manual flag stays
clear. -/
theorem share_rejected_pauses_run :
    c2state.isRunning = true ∧
    (attemptOpen .shareRejected c2state).isRunning = false ∧
    (attemptOpen .shareRejected c2state).manualTriggerNeeded = false :=
  ⟨rfl, rfl, rfl⟩

/-- C2 (amended): the `blocked` outcomes — no compatible share capability,
window open suppressed, synchronous exception — transition to
Running·ManualTriggerNeeded with the running flag and queue position
untouched; the `failed` outcome (share dialog cancelled/rejected) instead
clears the running flag (pauses the run) without setting the manual flag;
in every case the reducer state — queue position and recipient list — is
unchanged, so the campaign is never terminated. -/
theorem dispatch_failure_nonfatal (s : RunnerState) (o : DispatchOutcome) :
    (o = .shareUnavailable ∨ o = .windowBlocked ∨ o = .exceptionThrown →
      attemptOpen o s = { s with manualTriggerNeeded := true }) ∧
    attemptOpen .shareRejected s = { s with isRunning := false } ∧
    (attemptOpen o s).app = s.app := by
  refine ⟨?_, rfl, ?_⟩
  · rintro (rfl | rfl | rfl) <;> rfl
  · cases o <;> rfl

/-- C2 witness: a blocked `window.open` at `c2state` sets the manual flag
and preserves the rest. -/
theorem dispatch_failure_nonfatal_witness :
    attemptOpen .windowBlocked c2state = { c2state with manualTriggerNeeded := true } :=
  (dispatch_failure_nonfatal c2state .windowBlocked).1 (Or.inr (Or.inl rfl))

/-- A paused state with a valid current contact and the manual flag clear,
for C6: the controller is *not* in Running·ManualTriggerNeeded. -/
def c6state : RunnerState :=
  { app := { step := .running,
             contacts := [⟨"1", "Alice", "1234567890", .pending, true⟩],
             currentContactIndex := 0, delay := 15 / 10 },
    isRunning := false, countdown := 0, isWaitingForReturn := false,
    manualTriggerNeeded := false, interval := none, opens := 0 }

/-- A state with no current contact (position −1) for the C6 witness. -/
def c6stateEmpty : RunnerState :=
  { app := { step := .running,
             contacts := [⟨"1", "Alice", "1234567890", .pending, true⟩],
             currentContactIndex := -1, delay := 15 / 10 },
    isRunning := false, countdown := 0, isWaitingForReturn := false,
    manualTriggerNeeded := false, interval := none, opens := 0 }

/-- C6 counterexample: `manualOpen` invoked outside
Running·ManualTriggerNeeded (here: paused, manual flag clear) is **not** a
no-op — its only guard is `if (current)`, so it opens the target, sets the
waiting flag and forces the running flag. -/
theorem manualOpen_fires_outside_manual_state :
    c6state.manualTriggerNeeded = false ∧
    c6state.isRunning = false ∧
    (manualOpen c6state).isRunning = true ∧
    (manualOpen c6state).isWaitingForReturn = true ∧
    (manualOpen c6state).opens = c6state.opens + 1 :=
  ⟨rfl, rfl, rfl, rfl, rfl⟩

/-- C6 (amended): `manualOpen` is guarded only by the existence of a
current contact (`if (current)`): without one it is a no-op; with one it —
in **any** controller state, not only Running·ManualTriggerNeeded — clears
the manual flag, opens the external target, and sets the waiting and
running flags. (The UI renders the manual-open button only while the
manual flag is set, but the operation itself does not check it.) -/
theorem manualOpen_guard (s : RunnerState) :
    (currentContact s.app = none → manualOpen s = s) ∧
    (∀ c, currentContact s.app = some c →
      manualOpen s = { s with manualTriggerNeeded := false, opens := s.opens + 1,
                              isWaitingForReturn := true, isRunning := true }) := by
  constructor
  · intro h
    unfold manualOpen
    rw [h]
  · intro c h
    unfold manualOpen
    rw [h]

/-- C6 witness: with position −1 there is no current contact and
`manualOpen` is a no-op. -/
theorem manualOpen_guard_witness : manualOpen c6stateEmpty = c6stateEmpty :=
  (manualOpen_guard c6stateEmpty).1 (by decide)

/-- A Running·Countdown state for C4: two selected contacts, position 0,
0.2 s left on the live countdown interval. -/
def c4state : RunnerState :=
  { app := { step := .running,
             contacts := [⟨"1", "Alice", "1234567890", .pending, true⟩,
                          ⟨"2", "Bob", "9876543210", .pending, true⟩],
             currentContactIndex := 0, delay := 15 / 10 },
    isRunning := true, countdown := 2 / 10, isWaitingForReturn := false,
    manualTriggerNeeded := false, interval := some ⟨2 / 10, 2⟩, opens := 0 }

/-- C4: `pause()` does **not** cancel an active countdown. `toggleRun`'s
pause branch (`LiveRunner.tsx` lines 136–140) clears the flags and zeroes
the displayed countdown but contains no `clearInterval`, so the interval
started by the visibility handler keeps firing. At the failing input
(`c4state`, paused with 0.2 s left): the interval survives the pause, the
next tick reports 0.1 (a tick after pause), and the tick after that runs
the completion branch and dispatches `NEXT_CONTACT`, advancing the run
position while the controller is paused — so a later `start()` resumes at
the *next* recipient, skipping the one that was in flight. -/
theorem pause_does_not_cancel_countdown :
    (∀ s : RunnerState, (toggleRun s).interval = s.interval) ∧
    (toggleRun c4state).isRunning = false ∧
    (toggleRun c4state).countdown = 0 ∧
    (intervalTick (toggleRun c4state)).countdown = 1 / 10 ∧
    (intervalTick (intervalTick (toggleRun c4state))).app.currentContactIndex =
      c4state.app.currentContactIndex + 1 ∧
    (intervalTick (intervalTick (toggleRun c4state))).isRunning = false := by
  refine ⟨?_, rfl, rfl, ?_, ?_, ?_⟩
  · intro s
    unfold toggleRun
    split <;> rfl
  · simp [intervalTick, toggleRun, c4state, round1]
    norm_num
  · simp [intervalTick, toggleRun, c4state, round1, reducer]
    norm_num
  · simp [intervalTick, toggleRun, c4state, round1, reducer]
    norm_num

/-- The C7 reset scenario's starting state: a queue of three selected
recipients, all pending, position 0 (manual session started). -/
def c7queue : AppState :=
  { step := .manual,
    contacts := [⟨"1", "Alice", "1234567890", .pending, true⟩,
                 ⟨"2", "Bob", "9876543210", .pending, true⟩,
                 ⟨"3", "Carol", "5550001111", .pending, true⟩],
    currentContactIndex := 0, delay := 15 / 10 }

/-- C7: `RESET_RUNNER` sets the run position to −1 and every recipient's
status back to `pending`, preserving each recipient's id, name, number and
selected flag and the list order; and in the concrete scenario — three
selected recipients, the first marked `sent` and the second `skipped` by
manual advances — reset restores position −1 and all three to `pending`. -/
theorem reset_restores_pending :
    (∀ s : AppState,
      (reducer s .resetRunner).currentContactIndex = -1 ∧
      (reducer s .resetRunner).contacts.map Contact.id = s.contacts.map Contact.id ∧
      (reducer s .resetRunner).contacts.map Contact.name = s.contacts.map Contact.name ∧
      (reducer s .resetRunner).contacts.map Contact.number = s.contacts.map Contact.number ∧
      (reducer s .resetRunner).contacts.map Contact.selected = s.contacts.map Contact.selected ∧
      ∀ c ∈ (reducer s .resetRunner).contacts, c.status = .pending) ∧
    ((sessionNext .skipped (sessionNext .sent c7queue)).contacts.map Contact.status
        = [.sent, .skipped, .pending] ∧
      (reducer (sessionNext .skipped (sessionNext .sent c7queue)) .resetRunner).currentContactIndex
        = -1 ∧
      (reducer (sessionNext .skipped (sessionNext .sent c7queue)) .resetRunner).contacts.map
          Contact.status = [.pending, .pending, .pending]) := by
  constructor
  · intro s
    refine ⟨rfl, ?_, ?_, ?_, ?_, ?_⟩
    · simp [reducer, List.map_map, Function.comp]
    · simp [reducer, List.map_map, Function.comp]
    · simp [reducer, List.map_map, Function.comp]
    · simp [reducer, List.map_map, Function.comp]
    · intro c hc
      simp only [reducer, List.mem_map] at hc
      obtain ⟨d, _, rfl⟩ := hc
      rfl
  · exact ⟨by decide, by decide, by decide⟩

/-- C7 witness: the first recipient of the reset queue evaluates to
`pending`. -/
theorem reset_restores_pending_witness :
    (⟨"1", "Alice", "1234567890", SendStatus.pending, true⟩ : Contact).status =
      SendStatus.pending :=
  (reset_restores_pending.1 c7queue).2.2.2.2.2
    ⟨"1", "Alice", "1234567890", SendStatus.pending, true⟩ (by decide)

/-- Rounding to the nearest tenth is monotone. -/
theorem round1_mono {x y : ℚ} (h : x ≤ y) : round1 x ≤ round1 y := by
  unfold round1
  have hf : (⌊10 * x + 1 / 2⌋ : ℤ) ≤ ⌊10 * y + 1 / 2⌋ :=
    Int.floor_mono (by linarith)
  have : ((⌊10 * x + 1 / 2⌋ : ℤ) : ℚ) ≤ ((⌊10 * y + 1 / 2⌋ : ℤ) : ℚ) :=
    Int.cast_le.2 hf
  linarith

theorem round1_zero : round1 0 = 0 := by
  norm_num [round1]

/-- A cleared interval's callback never runs: ticking is the identity. -/
theorem countdownTick_inactive (c : Countdown) (h : c.active = false) :
    countdownTick c = c := by
  unfold countdownTick
  rw [h]
  simp

/-- One tick never raises the reported value, and re-establishes the bound
`max 0 (round1 timer) ≤ lastReported` it needs. -/
theorem countdown_step_dec (c : Countdown)
    (h : max 0 (round1 c.timer) ≤ c.lastReported) :
    (countdownTick c).lastReported ≤ c.lastReported ∧
    max 0 (round1 (countdownTick c).timer) ≤ (countdownTick c).lastReported := by
  by_cases ha : c.active = true
  · unfold countdownTick
    rw [ha]
    simp only [if_true]
    split
    · rename_i hz
      constructor
      · simp only []
        calc (0:ℚ) ≤ max 0 (round1 c.timer) := le_max_left _ _
          _ ≤ c.lastReported := h
      · have : round1 (c.timer - 1/10) ≤ 0 := by
          calc round1 (c.timer - 1/10) ≤ round1 0 := round1_mono (by linarith)
            _ = 0 := round1_zero
        simp only []
        rw [one_div] at this
        simp [max_le_iff, this]
    · rename_i hz
      constructor
      · calc max 0 (round1 (c.timer - 1/10)) ≤ max 0 (round1 c.timer) :=
            max_le_max le_rfl (round1_mono (by linarith))
          _ ≤ c.lastReported := h
      · exact le_rfl
  · rw [countdownTick_inactive c (by simpa using ha)]
    exact ⟨le_rfl, h⟩

/-- C8: the countdown interval's numeric and cancellation contract.
(1) Every value a tick reports is ≥ 0 and an integer number of tenths
(`Math.max(0, parseFloat(timer.toFixed(1)))`); (2) for a run started at a
non-negative one-decimal duration (the config delay is 1.5 by default and
changes in 0.5 steps with a 0.5 floor), the reported sequence is
monotonically non-increasing; (3) once the interval is cleared the
completion branch never runs: if completion had not fired before the
cancel, it never fires afterwards. -/
theorem countdown_contract :
    (∀ c : Countdown, c.active = true →
      0 ≤ (countdownTick c).lastReported ∧
      ∃ n : ℤ, (countdownTick c).lastReported = (n : ℚ) / 10) ∧
    (∀ t0 : ℚ, 0 ≤ t0 → round1 t0 = t0 →
      ∀ k : ℕ, (countdownTick^[k + 1] (startCountdown t0)).lastReported ≤
        (countdownTick^[k] (startCountdown t0)).lastReported) ∧
    (∀ (c : Countdown) (n : ℕ), c.completedFired = false →
      (countdownTick^[n] (cancelCountdown c)).completedFired = false) := by
  refine ⟨?_, ?_, ?_⟩
  · intro c ha
    unfold countdownTick
    rw [ha]
    simp only [if_true]
    split
    · exact ⟨le_rfl, 0, by norm_num⟩
    · constructor
      · exact le_max_left _ _
      · rcases le_total (⌊10 * (c.timer - 1 / 10) + 1 / 2⌋ : ℤ) 0 with hle | hle
        · refine ⟨0, ?_⟩
          simp only [round1]
          rw [max_eq_left]
          · norm_num
          · have : ((⌊10 * (c.timer - 1 / 10) + 1 / 2⌋ : ℤ) : ℚ) ≤ 0 := by
              exact_mod_cast hle
            linarith [this]
        · refine ⟨⌊10 * (c.timer - 1 / 10) + 1 / 2⌋, ?_⟩
          simp only [round1]
          rw [max_eq_right]
          have : (0 : ℚ) ≤ ((⌊10 * (c.timer - 1 / 10) + 1 / 2⌋ : ℤ) : ℚ) := by
            exact_mod_cast hle
          positivity
  · intro t0 h0 hr
    have hJ : ∀ k : ℕ,
        max 0 (round1 (countdownTick^[k] (startCountdown t0)).timer) ≤
          (countdownTick^[k] (startCountdown t0)).lastReported := by
      intro k
      induction k with
      | zero =>
        simp only [Function.iterate_zero, id_eq, startCountdown]
        rw [hr]
        simp [h0]
      | succ k ih =>
        rw [Function.iterate_succ_apply']
        exact (countdown_step_dec _ ih).2
    intro k
    rw [Function.iterate_succ_apply']
    exact (countdown_step_dec _ (hJ k)).1
  · intro c n h
    have hfix : countdownTick (cancelCountdown c) = cancelCountdown c :=
      countdownTick_inactive _ rfl
    rw [Function.iterate_fixed hfix]
    exact h

/-- C8 witness: a 1.5 s countdown — the first tick's report is clamped and
one-decimal, the first step is non-increasing, and cancelling after three
ticks (0.3 s) means 20 further tick opportunities never fire completion. -/
theorem countdown_contract_witness :
    (0 ≤ (countdownTick (startCountdown (15 / 10))).lastReported ∧
      ∃ n : ℤ, (countdownTick (startCountdown (15 / 10))).lastReported = (n : ℚ) / 10) ∧
    (countdownTick^[1] (startCountdown (15 / 10))).lastReported ≤
      (countdownTick^[0] (startCountdown (15 / 10))).lastReported ∧
    (countdownTick^[20]
        (cancelCountdown (countdownTick^[3] (startCountdown (15 / 10))))).completedFired
      = false := by
  refine ⟨countdown_contract.1 (startCountdown (15 / 10)) rfl,
    countdown_contract.2.1 (15 / 10) (by norm_num) (by norm_num [round1]) 0,
    countdown_contract.2.2 _ 20 ?_⟩
  show (countdownTick (countdownTick (countdownTick (startCountdown (15 / 10))))).completedFired
    = false
  norm_num [countdownTick, startCountdown, round1]

/-- A live interval's captured `total` is accurate exactly when every
`some`-valued interval agrees with the contact count. -/
theorem intervalTotalOk_iff (s : RunnerState) :
    intervalTotalOk s = true ↔
      ∀ t : IntervalTimer, s.interval = some t → t.total = s.app.contacts.length := by
  unfold intervalTotalOk
  cases s.interval <;> simp

/-- The C9 trace's starting state: three contacts of which only the first
is selected, fresh run position −1, step `running`, delay 0.1 s. -/
def c9state : RunnerState :=
  { app := { step := .running,
             contacts := [⟨"1", "Alice", "1234567890", .pending, true⟩,
                          ⟨"2", "Bob", "9876543210", .pending, false⟩,
                          ⟨"3", "Carol", "5550001111", .pending, false⟩],
             currentContactIndex := -1, delay := 1 / 10 },
    isRunning := false, countdown := 0, isWaitingForReturn := false,
    manualTriggerNeeded := false, interval := none, opens := 0 }

/-- C9 trace, first half: position the session at 0, start the run, open
succeeds, foreground returns, countdown completes. -/
def c9trace1 : List Event :=
  [.jump 0, .toggle, .dispatch .windowOpened, .visibility true, .tick]

/-- C9 trace, full: one more dispatch/foreground/countdown round. -/
def c9trace2 : List Event :=
  [.jump 0, .toggle, .dispatch .windowOpened, .visibility true, .tick,
   .dispatch .windowOpened, .visibility true, .tick]

/-- C9 counterexample: the auto-runner advances against the **full**
contact list, not the selected subsequence. With one selected contact among
three, after the first countdown completes the position equals
`len(selectedSequence) = 1` yet the controller is still running in step
`running` (no completion transition), and after a second round the position
is 2 > `len(selectedSequence)`, violating the claimed invariant. -/
theorem runner_exceeds_selected_bound :
    ((runTrace c9state c9trace1).app.currentContactIndex = 1 ∧
      (selectedContacts (runTrace c9state c9trace1).app).length = 1 ∧
      (runTrace c9state c9trace1).isRunning = true ∧
      (runTrace c9state c9trace1).app.step = .running) ∧
    ((runTrace c9state c9trace2).app.currentContactIndex = 2 ∧
      (selectedContacts (runTrace c9state c9trace2).app).length = 1 ∧
      (runTrace c9state c9trace2).isRunning = true) := by
  constructor
  · simp [runTrace, runStep, c9state, c9trace1, handleVisibilityChange, intervalTick,
      toggleRun, manualOpen, attemptOpen, reducer, triggerGuard, currentContact,
      selectedContacts, sessionCurrent, sessionNext, round1]
  · simp [runTrace, runStep, c9state, c9trace2, handleVisibilityChange, intervalTick,
      toggleRun, manualOpen, attemptOpen, reducer, triggerGuard, currentContact,
      selectedContacts, sessionCurrent, sessionNext, round1]

/-- C9 (amended): in every state reachable by the controller's operations,
`-1 ≤ position ≤ len(contacts)` — the bound is the **full** recipient list,
which is what the auto-runner indexes and bounds against (the manual
runner's own advance and jump are bounded by the selected subsequence,
which is no longer than the full list) — and when a countdown completes
with no next index below the captured total, the controller leaves the
running state: the running flag is cleared and the step becomes `summary`. -/
theorem runner_position_invariant :
    (∀ (s : RunnerState) (e : Event), PosInv s → PosInv (runStep s e)) ∧
    (∀ (s : RunnerState) (t : IntervalTimer), s.interval = some t →
      t.timer - 1 / 10 ≤ 0 → ¬(s.app.currentContactIndex + 1 < (t.total : Int)) →
      (runStep s .tick).isRunning = false ∧ (runStep s .tick).app.step = .summary) := by
  constructor
  · intro s e h
    obtain ⟨h1, h2, h3⟩ := h
    rw [intervalTotalOk_iff] at h3
    cases e with
    | visibility v =>
      show PosInv (handleVisibilityChange v s)
      unfold handleVisibilityChange
      split
      · refine ⟨h1, ?_, ?_⟩
        · simpa [reducer] using h2
        · rw [intervalTotalOk_iff]
          intro t ht
          simp only [] at ht
          injection ht with ht
          subst ht
          simp [reducer]
      · exact ⟨h1, h2, by rw [intervalTotalOk_iff]; exact h3⟩
    | tick =>
      show PosInv (intervalTick s)
      unfold intervalTick
      cases hI : s.interval with
      | none => exact ⟨h1, h2, by rw [intervalTotalOk_iff]; simp [hI]⟩
      | some t =>
        have htot : t.total = s.app.contacts.length := h3 t hI
        simp only []
        split
        · split
          · rename_i hz hlt
            refine ⟨?_, ?_, ?_⟩
            · dsimp only [reducer]
              omega
            · dsimp only [reducer]
              rw [htot] at hlt
              omega
            · rw [intervalTotalOk_iff]
              intro u hu
              exact Option.noConfusion hu
          · rename_i hz hlt
            refine ⟨h1, by simpa [reducer] using h2, ?_⟩
            rw [intervalTotalOk_iff]
            intro u hu
            exact Option.noConfusion hu
        · refine ⟨h1, h2, ?_⟩
          rw [intervalTotalOk_iff]
          intro u hu
          simp only [] at hu
          injection hu with hu
          subst hu
          simpa using htot
    | toggle =>
      show PosInv (toggleRun s)
      unfold toggleRun
      split <;>
        exact ⟨h1, h2, by rw [intervalTotalOk_iff]; intro u hu; exact h3 u hu⟩
    | manualTrigger =>
      show PosInv (manualOpen s)
      unfold manualOpen
      cases currentContact s.app with
      | some c => exact ⟨h1, h2, by rw [intervalTotalOk_iff]; intro u hu; exact h3 u hu⟩
      | none => exact ⟨h1, h2, by rw [intervalTotalOk_iff]; exact h3⟩
    | dispatch o =>
      show PosInv (if triggerGuard s then attemptOpen o s else s)
      split
      · cases o <;>
          exact ⟨h1, h2, by rw [intervalTotalOk_iff]; intro u hu; exact h3 u hu⟩
      · exact ⟨h1, h2, by rw [intervalTotalOk_iff]; exact h3⟩
    | sessionAdvance st =>
      show PosInv { s with app := sessionNext st s.app }
      unfold sessionNext
      cases hc : sessionCurrent s.app with
      | none => exact ⟨h1, h2, by rw [intervalTotalOk_iff]; intro u hu; exact h3 u hu⟩
      | some c =>
        have hsel : ((selectedContacts s.app).length : Int) ≤ (s.app.contacts.length : Int) := by
          exact_mod_cast List.length_filter_le _ _
        simp only []
        split
        · rename_i hlt
          refine ⟨?_, ?_, ?_⟩
          · dsimp only [reducer]
            omega
          · dsimp only [reducer]
            simp only [List.length_map]
            omega
          · rw [intervalTotalOk_iff]
            intro u hu
            dsimp only [reducer] at hu ⊢
            simp only [List.length_map]
            exact h3 u hu
        · refine ⟨h1, ?_, ?_⟩
          · dsimp only [reducer]
            simp only [List.length_map]
            omega
          · rw [intervalTotalOk_iff]
            intro u hu
            dsimp only [reducer] at hu ⊢
            simp only [List.length_map]
            exact h3 u hu
    | jump i =>
      show PosInv (if (i : Int) < ((selectedContacts s.app).length : Int)
        then { s with app := reducer s.app (.setContactIndex i) } else s)
      split
      · rename_i hlt
        have hsel : ((selectedContacts s.app).length : Int) ≤ (s.app.contacts.length : Int) := by
          exact_mod_cast List.length_filter_le _ _
        refine ⟨?_, ?_, ?_⟩
        · dsimp only [reducer]
          omega
        · dsimp only [reducer]
          omega
        · rw [intervalTotalOk_iff]
          intro u hu
          dsimp only [reducer] at hu ⊢
          exact h3 u hu
      · exact ⟨h1, h2, by rw [intervalTotalOk_iff]; exact h3⟩
    | reset =>
      show PosInv { s with app := reducer s.app .resetRunner }
      refine ⟨?_, ?_, ?_⟩
      · dsimp only [reducer]
        omega
      · dsimp only [reducer]
        simp only [List.length_map]
        omega
      · rw [intervalTotalOk_iff]
        intro u hu
        dsimp only [reducer] at hu ⊢
        simp only [List.length_map]
        exact h3 u hu
  · intro s t hI hz hlt
    show (intervalTick s).isRunning = false ∧ (intervalTick s).app.step = .summary
    unfold intervalTick
    rw [hI]
    simp only [if_pos hz, if_neg hlt]
    exact ⟨trivial, rfl⟩

/-- A Running·Countdown state at the last selected position for the C9
witness: one contact, position 0, 0.1 s left, captured total 1. -/
def c9invstate : RunnerState :=
  { app := { step := .running,
             contacts := [⟨"1", "Alice", "1234567890", .pending, true⟩],
             currentContactIndex := 0, delay := 1 / 10 },
    isRunning := true, countdown := 1 / 10, isWaitingForReturn := false,
    manualTriggerNeeded := false, interval := some ⟨1 / 10, 1⟩, opens := 0 }

/-- C9 witness: the invariant is preserved through a pause at `c9invstate`,
and the completing tick there leaves the running state for the summary. -/
theorem runner_position_invariant_witness :
    PosInv (runStep c9invstate .toggle) ∧
    (runStep c9invstate .tick).isRunning = false ∧
    (runStep c9invstate .tick).app.step = .summary :=
  ⟨runner_position_invariant.1 c9invstate .toggle (by decide),
   (runner_position_invariant.2 c9invstate ⟨1 / 10, 1⟩ rfl (by norm_num) (by decide)).1,
   (runner_position_invariant.2 c9invstate ⟨1 / 10, 1⟩ rfl (by norm_num) (by decide)).2⟩

end WhatsFlow
